import Mathlib

/-
Verification development for the JTF News verification and deduplication
pipeline (src/main.py).  The pure core of the pipeline - the lexical overlap
prefilter, the source-independence test, the corroboration matcher, the
two-tier duplicate detector, queue expiry and the per-headline orchestration
of process_cycle - is embedded shallowly below; the external collaborators
(the Claude semantic oracle, the md5 digest, the extraction oracle) enter as
function parameters.  Semantic-oracle calls are instrumented with a call
count so that the cost-control invariants of the spec can be stated.
-/

namespace JTFNews

/-! ## Python string primitives

main.py manipulates Python strings with split, strip, upper, lower, replace
and int().  These are modeled here by structurally recursive functions on the
character list of a Lean string (only the ASCII behavior matters for the
pipeline: facts and oracle replies are ASCII).
-/

/-- Splits a character list at every character satisfying p (separators are
dropped, empty pieces between consecutive separators are kept).  This is the
common core of Python's str.split variants. -/
def splitChars (p : Char → Bool) : List Char → List (List Char)
  | [] => [[]]
  | c :: cs =>
    if p c then [] :: splitChars p cs
    else
      match splitChars p cs with
      | [] => [[c]]
      | w :: ws => (c :: w) :: ws

/-- Python's fact.split() (no separator argument): split on whitespace runs,
discarding empty pieces. -/
def pySplit (s : String) : List String :=
  ((splitChars Char.isWhitespace s.data).map String.mk).filter (fun w => w ≠ "")

/-- Python's w.lower() (ASCII). -/
def pyLower (s : String) : String :=
  String.mk (s.data.map Char.toLower)

/-- Python's s.upper() (ASCII). -/
def pyUpper (s : String) : String :=
  String.mk (s.data.map Char.toUpper)

/-- Python's s.strip(): remove leading and trailing whitespace. -/
def pyStrip (s : String) : String :=
  String.mk (((s.data.dropWhile Char.isWhitespace).reverse.dropWhile Char.isWhitespace).reverse)

/-- answer.replace(" ", "") of main.py: remove every space character. -/
def removeSpaces (s : String) : String :=
  String.mk (s.data.filter (fun c => c ≠ ' '))

/-- Python's answer.split(","): comma split, keeping empty pieces. -/
def splitCommas (s : String) : List String :=
  (splitChars (fun c => c == ',') s.data).map String.mk

/-- Value of a run of ASCII digits. -/
def digitsToNat (l : List Char) : Nat :=
  l.foldl (fun n c => 10 * n + (c.toNat - 48)) 0

/-- Python's int(s), as used on the pieces of the oracle reply: optional
surrounding whitespace, an optional sign, then a nonempty ASCII digit run;
anything else raises ValueError, modeled as none.  (Underscore digit
separators and non-ASCII digits, which Python would also accept, are not
modeled.) -/
def pyInt? (s : String) : Option Int :=
  let t := ((s.data.dropWhile Char.isWhitespace).reverse.dropWhile Char.isWhitespace).reverse
  match t with
  | [] => none
  | c :: cs =>
    let core := if c == '-' || c == '+' then cs else c :: cs
    if core.isEmpty then none
    else if core.all Char.isDigit then
      some (if c == '-' then -(digitsToNat core : Int) else (digitsToNat core : Int))
    else none

/-! ## Data model -/

/-- One entry of CONFIG["sources"], as the Source Independence Oracle reads
it: the id, the owner string, and the names of the institutional holders
(main.py projects the "name" field out of each holder record; only the names
are kept here). -/
structure SourceRecord where
  id : String
  owner : String
  institutional_holders : List String
deriving DecidableEq

/-- The configuration options of config.json that the verification core
reads. -/
structure Config where
  sources : List SourceRecord
  max_shared_top_holders : Nat
  min_confidence : Int
  queue_timeout_hours : Int
deriving DecidableEq

/-- A scraped headline record, as built by the fetchers of main.py.
Timestamps are POSIX seconds; main.py stores ISO strings and compares the
parsed epoch-second values, modeled here as integers. -/
structure Headline where
  text : String
  source_id : String
  source_name : String
  source_rating : Int
  owner : String
  timestamp : Int
deriving DecidableEq

/-- One pending-queue entry (queue.json), exactly the record process_cycle
appends for an uncorroborated fact. -/
structure QueueItem where
  fact : String
  source_id : String
  source_name : String
  source_rating : Int
  timestamp : Int
  confidence : Int
deriving DecidableEq

/-- The dictionary extract_fact returns, as far as process_cycle reads it.
A field that may be absent from the Python dictionary (the regex fallback
emits neither a newsworthy nor a threshold_met key) is an Option, none
meaning the key is missing. -/
structure ExtractResult where
  fact : String
  confidence : Int
  newsworthy : Option Bool
  threshold_met : Option String
deriving DecidableEq

/-- A published story: the verified fact together with its two sources, the
incoming headline and the consumed queue item (main.py: sources =
[headline, match]). -/
structure PublishedStory where
  fact : String
  headline_source : Headline
  matched_item : QueueItem
deriving DecidableEq

/-- The persistent state process_cycle reads and writes: the pending queue
(queue.json), today's shown hashes (shown_DATE.txt), today's published fact
strings (stories.json), the processed-headline cache file
(processed_DATE.txt), and the stories published so far today. -/
structure PipeState where
  queue : List QueueItem
  shown : Finset String
  publishedFacts : List String
  processed : Finset String
  published : List PublishedStory
deriving DecidableEq

/-- What one iteration of the headline loop of process_cycle produces: the
new state, the number of semantic-oracle calls the duplicate check made,
whether find_matching_stories was invoked at all, and how many oracle calls
it made. -/
structure StepResult where
  state : PipeState
  dupOracleCalls : Nat
  matcherInvoked : Bool
  matcherOracleCalls : Nat
deriving DecidableEq

/-- A semantic-oracle round trip: main.py sends the new fact and the
shortlisted candidate facts to the Claude API and receives either reply text
or an exception; the external service is modeled as a function into Except. -/
abbrev SemanticOracle := String → List String → Except String String

/-! ## Lexical overlap prefilter -/

/-- The token set of has_word_overlap:
set(w.lower() for w in fact.split() if len(w) >= 3). -/
def factWords (fact : String) : Finset String :=
  (((pySplit fact).filter (fun w => 3 ≤ w.length)).map pyLower).toFinset

/-- The default lexical-overlap threshold.  The source's Python float default
0.15 is represented by the exact rational 3/20, written as a structure
literal so that the num and den projections compute; at the integer operand
sizes the source compares, the float comparison and the exact rational
comparison agree. -/
def defaultOverlapThreshold : ℚ := { num := 3, den := 20 }

/-- has_word_overlap of main.py (lines 309-325): false if either token set is
empty, else true iff len(shared) >= min_len * threshold.  The comparison is
performed exactly by cross-multiplying with the threshold's numerator and
denominator (the denominator of a rational is positive). -/
def has_word_overlap (fact1 fact2 : String)
    (threshold : ℚ := defaultOverlapThreshold) : Bool :=
  let words1 := factWords fact1
  let words2 := factWords fact2
  if words1 = ∅ ∨ words2 = ∅ then false
  else
    let shared := words1 ∩ words2
    let min_len := min words1.card words2.card
    decide ((min_len : Int) * threshold.num ≤ (shared.card : Int) * (threshold.den : Int))

/-! ## Source Independence Oracle -/

/-- The dictionary lookup of are_sources_unrelated: the comprehension
{s["id"]: s for s in CONFIG["sources"]} maps each id to its last occurrence
in the source list. -/
def lookupSource (sources : List SourceRecord) (sid : String) : Option SourceRecord :=
  sources.reverse.find? (fun s => s.id == sid)

/-- are_sources_unrelated of main.py (lines 284-306): false when either id is
unknown; false on equal owners; false when the institutional-holder
intersection reaches max_shared_top_holders; true otherwise. -/
def are_sources_unrelated (cfg : Config) (source1_id source2_id : String) : Bool :=
  match lookupSource cfg.sources source1_id, lookupSource cfg.sources source2_id with
  | some s1, some s2 =>
    if s1.owner = s2.owner then false
    else
      let holders1 := s1.institutional_holders.toFinset
      let holders2 := s2.institutional_holders.toFinset
      let shared := holders1 ∩ holders2
      if cfg.max_shared_top_holders ≤ shared.card then false
      else true
  | _, _ => false

/-! ## Corroboration matcher and duplicate detector -/

/-- find_matching_stories of main.py (lines 328-387), instrumented with the
number of semantic-oracle calls it performs (0 or 1).  The reply is stripped
and upper-cased; "NONE" or an empty reply means no match; otherwise the reply
is parsed as comma-separated 1-based indices into the shortlist, skipping
pieces that are not integers and indices out of range; an API error degrades
to no match. -/
def find_matching_stories (oracle : SemanticOracle) (fact : String)
    (queue : List QueueItem) : List QueueItem × Nat :=
  if queue.isEmpty then ([], 0)
  else
    let candidates := queue.filter (fun item => has_word_overlap fact item.fact)
    if candidates.isEmpty then ([], 0)
    else
      match oracle fact (candidates.map (fun item => item.fact)) with
      | Except.error _ => ([], 1)
      | Except.ok text =>
        let answer := pyUpper (pyStrip text)
        if answer = "NONE" ∨ answer = "" then ([], 1)
        else
          let matched := (splitCommas (removeSpaces answer)).filterMap (fun numStr =>
            (pyInt? numStr).bind (fun n =>
              if 1 ≤ n then candidates.get? (n - 1).toNat else none))
          (matched, 1)

/-- is_duplicate_batch of main.py (lines 390-432), instrumented with the
number of semantic-oracle calls (0 or 1): false on an empty published list or
an empty shortlist with no oracle call; otherwise one oracle call, duplicate
iff the stripped upper-cased reply is "YES"; an API error degrades to
false. -/
def is_duplicate_batch (oracle : SemanticOracle) (fact : String)
    (published : List String) : Bool × Nat :=
  if published.isEmpty then (false, 0)
  else
    let candidates := published.filter (fun p => has_word_overlap fact p)
    if candidates.isEmpty then (false, 0)
    else
      match oracle fact candidates with
      | Except.error _ => (false, 1)
      | Except.ok text => (decide (pyUpper (pyStrip text) = "YES"), 1)

/-- get_story_hash of main.py (lines 279-281): md5 of the lower-cased text,
truncated to 12 hex characters.  The md5 hex digest itself is an external
primitive, passed in as md5hex. -/
def get_story_hash (md5hex : String → String) (text : String) : String :=
  String.mk ((md5hex (pyLower text)).data.take 12)

/-- is_duplicate of main.py (lines 511-524), instrumented with the number of
semantic-oracle calls: the fast path answers true with no oracle call when
the fact's hash is in today's shown set, else the batched semantic check
runs against today's published facts. -/
def is_duplicate (md5hex : String → String) (oracle : SemanticOracle)
    (shown : Finset String) (published : List String) (fact : String) : Bool × Nat :=
  if get_story_hash md5hex fact ∈ shown then (true, 0)
  else is_duplicate_batch oracle fact published

/-! ## Queue expiry -/

/-- clean_expired_queue of main.py (lines 455-468): keep exactly the items
whose timestamp is strictly newer than now - timeout_hours * 3600. -/
def clean_expired_queue (timeout_hours : Int) (now : Int)
    (queue : List QueueItem) : List QueueItem :=
  let cutoff := now - timeout_hours * 3600
  queue.filter (fun item => cutoff < item.timestamp)

/-! ## Verification pipeline orchestration -/

/-- The regex-fallback branch of extract_fact (main.py lines 144-153): given
the optional "fact" capture (already unescaped) and the optional
"confidence" capture, it builds a result carrying only fact, confidence
(default 85) and removed - in particular no newsworthy key and no
threshold_met key. -/
def extract_fact_fallback (factCapture : Option String)
    (confCapture : Option Int) : ExtractResult :=
  match factCapture with
  | some f => { fact := f, confidence := confCapture.getD 85, newsworthy := none, threshold_met := none }
  | none => { fact := "SKIP", confidence := 0, newsworthy := none, threshold_met := none }

/-- One iteration of the headline loop of process_cycle (main.py lines
904-977), translated branch by branch.  cache is the processed-headline set
loaded once at the start of the cycle (line 900) and not refreshed inside the
loop; extract is the extraction oracle; newsworthiness defaults to true when
the key is absent (line 929). -/
def process_headline (cfg : Config) (md5hex : String → String)
    (matchOracle dupOracle : SemanticOracle) (extract : String → ExtractResult)
    (cache : Finset String) (st : PipeState) (hl : Headline) : StepResult :=
  if get_story_hash md5hex hl.text ∈ cache then
    { state := st, dupOracleCalls := 0, matcherInvoked := false, matcherOracleCalls := 0 }
  else
    let st1 := { st with processed := insert (get_story_hash md5hex hl.text) st.processed }
    let result := extract hl.text
    if result.fact = "SKIP" then
      { state := st1, dupOracleCalls := 0, matcherInvoked := false, matcherOracleCalls := 0 }
    else if result.confidence < cfg.min_confidence then
      { state := st1, dupOracleCalls := 0, matcherInvoked := false, matcherOracleCalls := 0 }
    else if result.newsworthy.getD true = false then
      { state := st1, dupOracleCalls := 0, matcherInvoked := false, matcherOracleCalls := 0 }
    else
      let dup := is_duplicate md5hex dupOracle st1.shown st1.publishedFacts result.fact
      if dup.1 then
        { state := st1, dupOracleCalls := dup.2, matcherInvoked := false, matcherOracleCalls := 0 }
      else
        let fm := find_matching_stories matchOracle result.fact st1.queue
        if fm.1.isEmpty then
          { state := { st1 with queue := st1.queue ++
                [{ fact := result.fact, source_id := hl.source_id,
                   source_name := hl.source_name, source_rating := hl.source_rating,
                   timestamp := hl.timestamp, confidence := result.confidence }] },
            dupOracleCalls := dup.2, matcherInvoked := true, matcherOracleCalls := fm.2 }
        else
          match fm.1.find? (fun m => are_sources_unrelated cfg hl.source_id m.source_id) with
          | some m =>
            { state := { st1 with
                queue := st1.queue.filter (fun q => q.fact ≠ m.fact),
                shown := insert (get_story_hash md5hex result.fact) st1.shown,
                publishedFacts := st1.publishedFacts ++ [result.fact],
                published := st1.published ++ [{ fact := result.fact, headline_source := hl, matched_item := m }] },
              dupOracleCalls := dup.2, matcherInvoked := true, matcherOracleCalls := fm.2 }
          | none =>
            { state := st1, dupOracleCalls := dup.2, matcherInvoked := true, matcherOracleCalls := fm.2 }

/-- One processing cycle (process_cycle of main.py, lines 881-982): expire
old queue items first, then run the headline loop, with the
processed-headline cache snapshot taken at the start of the cycle. -/
def process_cycle (cfg : Config) (md5hex : String → String)
    (matchOracle dupOracle : SemanticOracle) (extract : String → ExtractResult)
    (now : Int) (headlines : List Headline) (st : PipeState) : PipeState :=
  let st1 := { st with queue := clean_expired_queue cfg.queue_timeout_hours now st.queue }
  headlines.foldl
    (fun s hl => (process_headline cfg md5hex matchOracle dupOracle extract st.processed s hl).state)
    st1

/-! ## Concrete fixtures for the closed witness and counterexample theorems -/

/-- Identity stand-in for the external md5 hex digest in concrete runs (no
claim depends on the digest internals). -/
def md5W : String → String := fun s => s

/-- A semantic oracle that always replies "1". -/
def oracleOneW : SemanticOracle := fun _ _ => Except.ok "1"

/-- A semantic oracle that always replies "NO". -/
def oracleNoW : SemanticOracle := fun _ _ => Except.ok "NO"

/-- A queued fact from source "b". -/
def itemAlphaB : QueueItem := ⟨"alpha beta gamma", "b", "B", 90, 0, 80⟩

/-- The same fact text queued again, from source "c". -/
def itemAlphaC : QueueItem := ⟨"alpha beta gamma", "c", "C", 85, 5, 75⟩

/-- A lexically unrelated queued fact from source "b". -/
def itemDeltaB : QueueItem := ⟨"delta epsilon zeta", "b", "B", 90, 0, 80⟩

/-- A registry in which sources "a" and "b" share an owner. -/
def cfgRelW : Config := ⟨[⟨"a", "own1", []⟩, ⟨"b", "own1", []⟩], 2, 70, 3⟩

/-- A registry of three sources with pairwise different owners and no
holders. -/
def cfgUnrelW : Config := ⟨[⟨"a", "own1", []⟩, ⟨"b", "own2", []⟩, ⟨"c", "own3", []⟩], 2, 70, 3⟩

/-- An incoming headline from source "a". -/
def hlW : Headline := ⟨"headline for this cycle", "a", "A", 95, "own1", 100⟩

/-- Extraction oracle returning a fixed newsworthy fact. -/
def extractAlphaW : String → ExtractResult := fun _ => ⟨"alpha beta gamma", 90, some true, none⟩

/-- Extraction oracle returning the same fact with the newsworthy key
missing. -/
def extractNoNewsW : String → ExtractResult := fun _ => ⟨"alpha beta gamma", 90, none, none⟩

/-- The empty pipeline state. -/
def stEmptyW : PipeState := ⟨[], ∅, [], ∅, []⟩

/-- State with just the fact from source "b" queued. -/
def stQueueBW : PipeState := ⟨[itemAlphaB], ∅, [], ∅, []⟩

/-- State with the two identical fact texts and the unrelated fact queued. -/
def stQueue3W : PipeState := ⟨[itemAlphaB, itemAlphaC, itemDeltaB], ∅, [], ∅, []⟩

/-- State whose shown-hash set already holds the truncated hash of
"alpha beta gamma" under the identity digest. -/
def stShownW : PipeState := ⟨[itemAlphaB], {"alpha beta g"}, [], ∅, []⟩

/-- An item queued at time 0. -/
def itemT0W : QueueItem := ⟨"queued fact text", "b", "B", 90, 0, 80⟩

/-- The queue item the headline loop builds for hlW's extracted fact. -/
def qNewW : QueueItem := ⟨"alpha beta gamma", "a", "A", 95, 100, 90⟩

/-! ## Claim C2 -/

/-- C2 counterexample: "hi" is a non-empty fact string on which the
self-comparison fails, because its token set (lower-cased words of length at
least 3) is empty. -/
theorem C2_counterexample :
    ("hi" : String) ≠ "" ∧ has_word_overlap "hi" "hi" = false := by
  decide

/-- C2 (amended): the prefilter passes every self-comparison whose token set
(the lower-cased words of length at least 3) is non-empty, is symmetric at
any threshold, and returns false whenever either token set is empty. -/
theorem C2_overlap_properties :
    (∀ f : String, factWords f ≠ ∅ → has_word_overlap f f = true) ∧
    (∀ (a b : String) (t : ℚ), has_word_overlap a b t = has_word_overlap b a t) ∧
    (∀ a b : String, factWords a = ∅ ∨ factWords b = ∅ → has_word_overlap a b = false) := by
  refine ⟨?_, ?_, ?_⟩
  · intro f hf
    simp only [has_word_overlap]
    rw [if_neg (by simp [hf])]
    simp only [Finset.inter_self, min_self, decide_eq_true_eq]
    show ((factWords f).card : Int) * 3 ≤ ((factWords f).card : Int) * 20
    have h0 : (0 : Int) ≤ ((factWords f).card : Int) := Int.ofNat_nonneg _
    exact mul_le_mul_of_nonneg_left (by norm_num) h0
  · intro a b t
    by_cases h1 : factWords a = ∅ <;> by_cases h2 : factWords b = ∅ <;>
      simp [has_word_overlap, h1, h2, Finset.inter_comm (factWords a) (factWords b),
        min_comm (factWords a).card (factWords b).card]
  · intro a b h
    rcases h with h | h <;> simp [has_word_overlap, h]

/-- Witness for C2: a concrete fact with a non-empty token set passes the
self-comparison, and a concrete pair with an empty token set is rejected. -/
theorem C2_witness :
    factWords "alpha beta" ≠ ∅ ∧ has_word_overlap "alpha beta" "alpha beta" = true ∧
    has_word_overlap "hi" "gamma delta" = false :=
  ⟨by decide, C2_overlap_properties.1 "alpha beta" (by decide),
   C2_overlap_properties.2.2 "hi" "gamma delta" (Or.inl (by decide))⟩

/-! ## Claim C3 -/

/-- C3: with an empty queue, an empty published list, or an empty lexical
shortlist, the corroboration matcher returns the empty list and the slow-path
duplicate detector returns false, with zero semantic-oracle calls - and this
holds for every oracle, so the result cannot depend on it. -/
theorem C3_empty_shortlist_no_oracle_call :
    (∀ (o : SemanticOracle) (fact : String), find_matching_stories o fact [] = ([], 0)) ∧
    (∀ (o : SemanticOracle) (fact : String) (queue : List QueueItem),
      queue.filter (fun item => has_word_overlap fact item.fact) = [] →
      find_matching_stories o fact queue = ([], 0)) ∧
    (∀ (o : SemanticOracle) (fact : String), is_duplicate_batch o fact [] = (false, 0)) ∧
    (∀ (o : SemanticOracle) (fact : String) (published : List String),
      published.filter (fun p => has_word_overlap fact p) = [] →
      is_duplicate_batch o fact published = (false, 0)) := by
  refine ⟨?_, ?_, ?_, ?_⟩
  · intro o fact
    rfl
  · intro o fact queue h
    unfold find_matching_stories
    cases queue with
    | nil => rfl
    | cons a l => simp [h]
  · intro o fact
    rfl
  · intro o fact published h
    unfold is_duplicate_batch
    cases published with
    | nil => rfl
    | cons a l => simp [h]

/-- Witness for C3: a fact with no lexical overlap against a one-item queue
and a one-fact published list yields the negative results with zero oracle
calls, under an oracle that would claim a match if it were consulted. -/
theorem C3_witness :
    find_matching_stories oracleOneW "qqq www" [itemAlphaB] = ([], 0) ∧
    is_duplicate_batch oracleOneW "qqq www" ["alpha beta gamma"] = (false, 0) :=
  ⟨C3_empty_shortlist_no_oracle_call.2.1 oracleOneW "qqq www" [itemAlphaB] (by decide),
   C3_empty_shortlist_no_oracle_call.2.2.2 oracleOneW "qqq www" ["alpha beta gamma"] (by decide)⟩

/-! ## Claim C4 -/

/-- C4: characterization of are_sources_unrelated - true exactly when both
ids resolve in the Source Registry, the owners differ, and the shared
institutional holders stay strictly below the configured maximum; in
particular false on an unknown id, on equal owners, and on an intersection of
size at least the maximum. -/
theorem C4_unrelated_characterization (cfg : Config) (a b : String) :
    are_sources_unrelated cfg a b = true ↔
      ∃ s1 s2, lookupSource cfg.sources a = some s1 ∧ lookupSource cfg.sources b = some s2 ∧
        s1.owner ≠ s2.owner ∧
        (s1.institutional_holders.toFinset ∩ s2.institutional_holders.toFinset).card <
          cfg.max_shared_top_holders := by
  unfold are_sources_unrelated
  cases h1 : lookupSource cfg.sources a with
  | none => simp
  | some s1 =>
    cases h2 : lookupSource cfg.sources b with
    | none => simp
    | some s2 =>
      by_cases ho : s1.owner = s2.owner
      · simp [ho]
      · by_cases hc : cfg.max_shared_top_holders ≤
            (s1.institutional_holders.toFinset ∩ s2.institutional_holders.toFinset).card
        · simp [ho, hc, Nat.not_lt.mpr hc]
        · simp [ho, hc, Nat.lt_of_not_le hc]

/-- Witness for C4: two registered sources with distinct owners and no shared
holders are unrelated. -/
theorem C4_witness : are_sources_unrelated cfgUnrelW "a" "b" = true :=
  (C4_unrelated_characterization cfgUnrelW "a" "b").mpr
    ⟨⟨"a", "own1", []⟩, ⟨"b", "own2", []⟩, by decide, by decide, by decide, by decide⟩

/-! ## Claim C5 -/

/-- C5: the source-independence test is symmetric in its two ids and never
reports a source as unrelated to itself, registered or not. -/
theorem C5_unrelated_symm_irrefl :
    (∀ (cfg : Config) (a b : String),
      are_sources_unrelated cfg a b = are_sources_unrelated cfg b a) ∧
    (∀ (cfg : Config) (a : String), are_sources_unrelated cfg a a = false) := by
  constructor
  · intro cfg a b
    unfold are_sources_unrelated
    cases h1 : lookupSource cfg.sources a with
    | none =>
      cases h2 : lookupSource cfg.sources b with
      | none => rfl
      | some s2 => rfl
    | some s1 =>
      cases h2 : lookupSource cfg.sources b with
      | none => rfl
      | some s2 =>
        dsimp only
        by_cases ho : s1.owner = s2.owner
        · rw [if_pos ho, if_pos ho.symm]
        · have ho2 : ¬ s2.owner = s1.owner := fun h => ho h.symm
          simp only [if_neg ho, if_neg ho2]
          rw [Finset.inter_comm]
  · intro cfg a
    unfold are_sources_unrelated
    cases h1 : lookupSource cfg.sources a with
    | none => rfl
    | some s1 => simp

/-! ## Claim C6 -/

/-- C6: queue expiry at the cycle boundary - an item is kept when cleaning at
any time strictly before timestamp + H hours, removed when cleaning strictly
after, removed whenever its age exceeds the timeout; and a processing cycle
expires the queue before the headline loop processes any candidate. -/
theorem C6_queue_expiry :
    (∀ (H now : Int) (queue : List QueueItem) (item : QueueItem), item ∈ queue →
      (now < item.timestamp + H * 3600 → item ∈ clean_expired_queue H now queue) ∧
      (item.timestamp + H * 3600 < now → item ∉ clean_expired_queue H now queue) ∧
      (H * 3600 < now - item.timestamp → item ∉ clean_expired_queue H now queue)) ∧
    (∀ cfg md5hex matchOracle dupOracle extract now headlines st,
      process_cycle cfg md5hex matchOracle dupOracle extract now headlines st =
        headlines.foldl
          (fun s hl =>
            (process_headline cfg md5hex matchOracle dupOracle extract st.processed s hl).state)
          { st with queue := clean_expired_queue cfg.queue_timeout_hours now st.queue }) := by
  constructor
  · intro H now queue item hmem
    refine ⟨?_, ?_, ?_⟩
    · intro h
      unfold clean_expired_queue
      rw [List.mem_filter]
      refine ⟨hmem, ?_⟩
      simp only [decide_eq_true_eq]
      omega
    · intro h hin
      unfold clean_expired_queue at hin
      rw [List.mem_filter] at hin
      have h2 := hin.2
      simp only [decide_eq_true_eq] at h2
      omega
    · intro h hin
      unfold clean_expired_queue at hin
      rw [List.mem_filter] at hin
      have h2 := hin.2
      simp only [decide_eq_true_eq] at h2
      omega
  · intro cfg md5hex matchOracle dupOracle extract now headlines st
    rfl

/-- Witness for C6: with a 3-hour timeout an item stamped at time 0 is still
queued when cleaning at 10000 seconds and gone when cleaning at 11000. -/
theorem C6_witness :
    itemT0W ∈ clean_expired_queue 3 10000 [itemT0W] ∧
    itemT0W ∉ clean_expired_queue 3 11000 [itemT0W] :=
  ⟨(C6_queue_expiry.1 3 10000 [itemT0W] itemT0W (by decide)).1 (by decide),
   (C6_queue_expiry.1 3 11000 [itemT0W] itemT0W (by decide)).2.1 (by decide)⟩

/-! ## Claim C7 -/

/-- C7: a fact the duplicate detector flags is dropped with no further
action - queue, shown set, published facts and published stories are all
unchanged and the corroboration matcher is never invoked; and in particular a
fact whose lower-cased hash is already in today's shown set is answered true
by the fast path with zero semantic-oracle calls. -/
theorem C7_duplicate_fast_path_drops
    (cfg : Config) (md5hex : String → String) (matchOracle dupOracle : SemanticOracle)
    (extract : String → ExtractResult) (cache : Finset String) (st : PipeState) (hl : Headline)
    (hcache : get_story_hash md5hex hl.text ∉ cache)
    (hskip : (extract hl.text).fact ≠ "SKIP")
    (hconf : ¬ (extract hl.text).confidence < cfg.min_confidence)
    (hnews : (extract hl.text).newsworthy.getD true = true)
    (hdup : (is_duplicate md5hex dupOracle st.shown st.publishedFacts (extract hl.text).fact).1 = true) :
    ((process_headline cfg md5hex matchOracle dupOracle extract cache st hl).state.queue = st.queue ∧
     (process_headline cfg md5hex matchOracle dupOracle extract cache st hl).state.shown = st.shown ∧
     (process_headline cfg md5hex matchOracle dupOracle extract cache st hl).state.publishedFacts
       = st.publishedFacts ∧
     (process_headline cfg md5hex matchOracle dupOracle extract cache st hl).state.published
       = st.published ∧
     (process_headline cfg md5hex matchOracle dupOracle extract cache st hl).matcherInvoked = false) ∧
    (∀ (shown : Finset String) (published : List String) (fact : String),
      get_story_hash md5hex fact ∈ shown →
      is_duplicate md5hex dupOracle shown published fact = (true, 0)) := by
  have hpe : process_headline cfg md5hex matchOracle dupOracle extract cache st hl =
      { state := { st with processed := insert (get_story_hash md5hex hl.text) st.processed },
        dupOracleCalls :=
          (is_duplicate md5hex dupOracle st.shown st.publishedFacts (extract hl.text).fact).2,
        matcherInvoked := false, matcherOracleCalls := 0 } := by
    unfold process_headline
    rw [if_neg hcache]
    dsimp only
    rw [if_neg hskip, if_neg hconf, if_neg (by simp [hnews]), if_pos hdup]
  constructor
  · rw [hpe]
    exact ⟨rfl, rfl, rfl, rfl, rfl⟩
  · intro shown published fact h
    unfold is_duplicate
    rw [if_pos h]

/-- Witness for C7: a fact whose hash is already in the shown set is dropped
with an unchanged queue and no matcher invocation. -/
theorem C7_witness :
    (process_headline cfgUnrelW md5W oracleOneW oracleNoW extractAlphaW ∅ stShownW hlW).state.queue
      = stShownW.queue ∧
    (process_headline cfgUnrelW md5W oracleOneW oracleNoW extractAlphaW ∅ stShownW hlW).matcherInvoked
      = false ∧
    is_duplicate md5W oracleNoW stShownW.shown stShownW.publishedFacts "alpha beta gamma" = (true, 0) :=
  ⟨(C7_duplicate_fast_path_drops cfgUnrelW md5W oracleOneW oracleNoW extractAlphaW ∅ stShownW hlW
      (by decide) (by decide) (by decide) (by decide) (by decide)).1.1,
   (C7_duplicate_fast_path_drops cfgUnrelW md5W oracleOneW oracleNoW extractAlphaW ∅ stShownW hlW
      (by decide) (by decide) (by decide) (by decide) (by decide)).1.2.2.2.2,
   (C7_duplicate_fast_path_drops cfgUnrelW md5W oracleOneW oracleNoW extractAlphaW ∅ stShownW hlW
      (by decide) (by decide) (by decide) (by decide) (by decide)).2
     stShownW.shown stShownW.publishedFacts "alpha beta gamma" (by decide)⟩

/-! ## Claim C8 -/

/-- C8: defensive parsing of semantic-oracle replies - every matched item the
corroboration matcher returns comes from the lexical shortlist (non-integer
reply pieces are skipped and out-of-range indices are ignored rather than
raising), an oracle error or a "NONE"/empty reply yields the empty match
list, and the duplicate detector returns not-duplicate on an oracle error or
on any reply other than "YES". -/
theorem C8_oracle_reply_robustness :
    (∀ (o : SemanticOracle) (fact : String) (queue : List QueueItem),
      ∀ m ∈ (find_matching_stories o fact queue).1,
        m ∈ queue ∧ has_word_overlap fact m.fact = true) ∧
    (∀ (e fact : String) (queue : List QueueItem),
      (find_matching_stories (fun _ _ => Except.error e) fact queue).1 = []) ∧
    (∀ (reply fact : String) (queue : List QueueItem),
      pyUpper (pyStrip reply) = "NONE" ∨ pyUpper (pyStrip reply) = "" →
      (find_matching_stories (fun _ _ => Except.ok reply) fact queue).1 = []) ∧
    (∀ (e fact : String) (published : List String),
      (is_duplicate_batch (fun _ _ => Except.error e) fact published).1 = false) ∧
    (∀ (reply fact : String) (published : List String),
      pyUpper (pyStrip reply) ≠ "YES" →
      (is_duplicate_batch (fun _ _ => Except.ok reply) fact published).1 = false) := by
  refine ⟨?_, ?_, ?_, ?_, ?_⟩
  · intro o fact queue m hm
    unfold find_matching_stories at hm
    by_cases hq : queue.isEmpty
    · rw [if_pos hq] at hm
      simp at hm
    · rw [if_neg hq] at hm
      dsimp only at hm
      by_cases hc : (queue.filter (fun item => has_word_overlap fact item.fact)).isEmpty
      · rw [if_pos hc] at hm
        simp at hm
      · rw [if_neg hc] at hm
        cases hor : o fact
            ((queue.filter (fun item => has_word_overlap fact item.fact)).map
              (fun item => item.fact)) with
        | error err =>
          rw [hor] at hm
          simp at hm
        | ok text =>
          rw [hor] at hm
          dsimp only at hm
          by_cases hn : pyUpper (pyStrip text) = "NONE" ∨ pyUpper (pyStrip text) = ""
          · rw [if_pos hn] at hm
            simp at hm
          · rw [if_neg hn] at hm
            dsimp only at hm
            rw [List.mem_filterMap] at hm
            obtain ⟨s, _, hf⟩ := hm
            cases hpi : pyInt? s with
            | none =>
              rw [hpi] at hf
              simp at hf
            | some n =>
              rw [hpi] at hf
              simp only [Option.some_bind] at hf
              by_cases h1 : 1 ≤ n
              · rw [if_pos h1] at hf
                have hmem := List.get?_mem hf
                rw [List.mem_filter] at hmem
                exact ⟨hmem.1, hmem.2⟩
              · rw [if_neg h1] at hf
                simp at hf
  · intro e fact queue
    unfold find_matching_stories
    by_cases hq : queue.isEmpty
    · rw [if_pos hq]
    · rw [if_neg hq]
      dsimp only
      by_cases hc : (queue.filter (fun item => has_word_overlap fact item.fact)).isEmpty
      · rw [if_pos hc]
      · rw [if_neg hc]
  · intro reply fact queue hn
    unfold find_matching_stories
    by_cases hq : queue.isEmpty
    · rw [if_pos hq]
    · rw [if_neg hq]
      dsimp only
      by_cases hc : (queue.filter (fun item => has_word_overlap fact item.fact)).isEmpty
      · rw [if_pos hc]
      · rw [if_neg hc]
        rw [if_pos hn]
  · intro e fact published
    unfold is_duplicate_batch
    by_cases hp : published.isEmpty
    · rw [if_pos hp]
    · rw [if_neg hp]
      dsimp only
      by_cases hc : (published.filter (fun p => has_word_overlap fact p)).isEmpty
      · rw [if_pos hc]
      · rw [if_neg hc]
  · intro reply fact published hy
    unfold is_duplicate_batch
    by_cases hp : published.isEmpty
    · rw [if_pos hp]
    · rw [if_neg hp]
      dsimp only
      by_cases hc : (published.filter (fun p => has_word_overlap fact p)).isEmpty
      · rw [if_pos hc]
      · rw [if_neg hc]
        dsimp only
        simp [hy]

/-- Witness for C8: an oracle failure, a stripped-and-uppercased "NONE"
reply, and a "NO" reply all degrade to the negative result. -/
theorem C8_witness :
    (find_matching_stories (fun _ _ => Except.error "boom") "alpha beta" [itemAlphaB]).1 = [] ∧
    (find_matching_stories (fun _ _ => Except.ok " none ") "alpha beta gamma" [itemAlphaB]).1 = [] ∧
    (is_duplicate_batch (fun _ _ => Except.ok "NO") "alpha beta gamma" ["alpha beta gamma"]).1 = false :=
  ⟨C8_oracle_reply_robustness.2.1 "boom" "alpha beta" [itemAlphaB],
   C8_oracle_reply_robustness.2.2.1 " none " "alpha beta gamma" [itemAlphaB] (Or.inl (by decide)),
   C8_oracle_reply_robustness.2.2.2.2 "NO" "alpha beta gamma" ["alpha beta gamma"] (by decide)⟩

/-! ## Claim C1 -/

/-- C1 counterexample: a corroboration match exists but shares the owner with
the incoming source; the code then neither publishes nor enqueues - the
resulting queue is unchanged and holds no item from the incoming source "a",
whereas the claim requires the incoming fact to be enqueued as a new
QueueItem. -/
theorem C1_counterexample :
    (find_matching_stories oracleOneW "alpha beta gamma" stQueueBW.queue).1 ≠ [] ∧
    (∀ m ∈ (find_matching_stories oracleOneW "alpha beta gamma" stQueueBW.queue).1,
      are_sources_unrelated cfgRelW "a" m.source_id = false) ∧
    (process_headline cfgRelW md5W oracleOneW oracleNoW extractAlphaW ∅ stQueueBW hlW).state.queue
      = stQueueBW.queue ∧
    (process_headline cfgRelW md5W oracleOneW oracleNoW extractAlphaW ∅ stQueueBW hlW).state.published
      = [] ∧
    (∀ q ∈ (process_headline cfgRelW md5W oracleOneW oracleNoW extractAlphaW ∅ stQueueBW hlW).state.queue,
      q.source_id ≠ "a") := by
  decide

/-- C1 (amended): when the incoming fact has corroboration matches but none
passes the independence check, the pipeline produces no PublishedStory and
leaves the queue exactly as it was - the previously queued items remain, and
the incoming fact is dropped without being enqueued. -/
theorem C1_no_independent_match_drops_fact
    (cfg : Config) (md5hex : String → String) (matchOracle dupOracle : SemanticOracle)
    (extract : String → ExtractResult) (cache : Finset String) (st : PipeState) (hl : Headline)
    (hcache : get_story_hash md5hex hl.text ∉ cache)
    (hskip : (extract hl.text).fact ≠ "SKIP")
    (hconf : ¬ (extract hl.text).confidence < cfg.min_confidence)
    (hnews : (extract hl.text).newsworthy.getD true = true)
    (hdup : (is_duplicate md5hex dupOracle st.shown st.publishedFacts (extract hl.text).fact).1 = false)
    (hmatch : (find_matching_stories matchOracle (extract hl.text).fact st.queue).1 ≠ [])
    (hfind : (find_matching_stories matchOracle (extract hl.text).fact st.queue).1.find?
        (fun m => are_sources_unrelated cfg hl.source_id m.source_id) = none) :
    (process_headline cfg md5hex matchOracle dupOracle extract cache st hl).state.queue = st.queue ∧
    (process_headline cfg md5hex matchOracle dupOracle extract cache st hl).state.shown = st.shown ∧
    (process_headline cfg md5hex matchOracle dupOracle extract cache st hl).state.publishedFacts
      = st.publishedFacts ∧
    (process_headline cfg md5hex matchOracle dupOracle extract cache st hl).state.published
      = st.published := by
  have hpe : process_headline cfg md5hex matchOracle dupOracle extract cache st hl =
      { state := { st with processed := insert (get_story_hash md5hex hl.text) st.processed },
        dupOracleCalls :=
          (is_duplicate md5hex dupOracle st.shown st.publishedFacts (extract hl.text).fact).2,
        matcherInvoked := true,
        matcherOracleCalls :=
          (find_matching_stories matchOracle (extract hl.text).fact st.queue).2 } := by
    unfold process_headline
    rw [if_neg hcache]
    dsimp only
    rw [if_neg hskip, if_neg hconf, if_neg (by simp [hnews]), if_neg (by simp [hdup]),
      if_neg (by simp [List.isEmpty_iff, hmatch]), hfind]
  rw [hpe]
  exact ⟨rfl, rfl, rfl, rfl⟩

/-- Witness for C1 (amended): the concrete same-owner scenario of the
counterexample leaves queue and published stories untouched. -/
theorem C1_witness :
    (process_headline cfgRelW md5W oracleOneW oracleNoW extractAlphaW ∅ stQueueBW hlW).state.queue
      = stQueueBW.queue ∧
    (process_headline cfgRelW md5W oracleOneW oracleNoW extractAlphaW ∅ stQueueBW hlW).state.published
      = stQueueBW.published :=
  ⟨(C1_no_independent_match_drops_fact cfgRelW md5W oracleOneW oracleNoW extractAlphaW ∅ stQueueBW hlW
      (by decide) (by decide) (by decide) (by decide) (by decide) (by decide) (by decide)).1,
   (C1_no_independent_match_drops_fact cfgRelW md5W oracleOneW oracleNoW extractAlphaW ∅ stQueueBW hlW
      (by decide) (by decide) (by decide) (by decide) (by decide) (by decide) (by decide)).2.2.2⟩

/-! ## Claim C9 -/

/-- C9: when a match is consumed into a PublishedStory, removal from the
queue is by fact-text equality - the new queue is the old one filtered on
fact text differing from the matched item's, so every entry carrying the
matched fact text is removed (whatever its source) and every other entry
remains. -/
theorem C9_publish_removes_all_equal_fact_items
    (cfg : Config) (md5hex : String → String) (matchOracle dupOracle : SemanticOracle)
    (extract : String → ExtractResult) (cache : Finset String) (st : PipeState) (hl : Headline)
    (m : QueueItem)
    (hcache : get_story_hash md5hex hl.text ∉ cache)
    (hskip : (extract hl.text).fact ≠ "SKIP")
    (hconf : ¬ (extract hl.text).confidence < cfg.min_confidence)
    (hnews : (extract hl.text).newsworthy.getD true = true)
    (hdup : (is_duplicate md5hex dupOracle st.shown st.publishedFacts (extract hl.text).fact).1 = false)
    (hfind : (find_matching_stories matchOracle (extract hl.text).fact st.queue).1.find?
        (fun mm => are_sources_unrelated cfg hl.source_id mm.source_id) = some m) :
    (process_headline cfg md5hex matchOracle dupOracle extract cache st hl).state.queue
      = st.queue.filter (fun q => q.fact ≠ m.fact) ∧
    (∀ q ∈ st.queue, q.fact ≠ m.fact →
      q ∈ (process_headline cfg md5hex matchOracle dupOracle extract cache st hl).state.queue) ∧
    (∀ q ∈ st.queue, q.fact = m.fact →
      q ∉ (process_headline cfg md5hex matchOracle dupOracle extract cache st hl).state.queue) := by
  have hne : (find_matching_stories matchOracle (extract hl.text).fact st.queue).1 ≠ [] := by
    intro h
    rw [h] at hfind
    simp at hfind
  have hpe : process_headline cfg md5hex matchOracle dupOracle extract cache st hl =
      { state := { st with
          processed := insert (get_story_hash md5hex hl.text) st.processed,
          queue := st.queue.filter (fun q => q.fact ≠ m.fact),
          shown := insert (get_story_hash md5hex (extract hl.text).fact) st.shown,
          publishedFacts := st.publishedFacts ++ [(extract hl.text).fact],
          published := st.published ++
            [{ fact := (extract hl.text).fact, headline_source := hl, matched_item := m }] },
        dupOracleCalls :=
          (is_duplicate md5hex dupOracle st.shown st.publishedFacts (extract hl.text).fact).2,
        matcherInvoked := true,
        matcherOracleCalls :=
          (find_matching_stories matchOracle (extract hl.text).fact st.queue).2 } := by
    unfold process_headline
    rw [if_neg hcache]
    dsimp only
    rw [if_neg hskip, if_neg hconf, if_neg (by simp [hnews]), if_neg (by simp [hdup]),
      if_neg (by simp [List.isEmpty_iff, hne]), hfind]
  refine ⟨?_, ?_, ?_⟩
  · rw [hpe]
  · intro q hq hqne
    rw [hpe]
    dsimp only
    rw [List.mem_filter]
    exact ⟨hq, by simp [hqne]⟩
  · intro q hq hqe hin
    rw [hpe] at hin
    dsimp only at hin
    rw [List.mem_filter] at hin
    have h2 := hin.2
    simp [hqe] at h2

/-- Witness for C9: publication of the matched item from source "b" also
removes the identically worded item from source "c", while the unrelated
item from source "b" stays queued. -/
theorem C9_witness :
    (process_headline cfgUnrelW md5W oracleOneW oracleNoW extractAlphaW ∅ stQueue3W hlW).state.queue
      = [itemDeltaB] ∧
    itemAlphaC ∉
      (process_headline cfgUnrelW md5W oracleOneW oracleNoW extractAlphaW ∅ stQueue3W hlW).state.queue ∧
    itemDeltaB ∈
      (process_headline cfgUnrelW md5W oracleOneW oracleNoW extractAlphaW ∅ stQueue3W hlW).state.queue := by
  have h := C9_publish_removes_all_equal_fact_items cfgUnrelW md5W oracleOneW oracleNoW extractAlphaW
    ∅ stQueue3W hlW itemAlphaB (by decide) (by decide) (by decide) (by decide) (by decide) (by decide)
  exact ⟨h.1.trans (by decide), h.2.2 itemAlphaC (by decide) (by decide),
    h.2.1 itemDeltaB (by decide) (by decide)⟩

/-! ## Claim C10 -/

/-- C10: the regex fallback of extract_fact never carries a newsworthy key,
and a missing newsworthy key defaults to true - the headline loop behaves
exactly as if newsworthy were explicitly true, and in particular such a fact
proceeds past the newsworthiness gate and (with no corroboration match) is
enqueued rather than skipped. -/
theorem C10_missing_newsworthy_defaults_true :
    (∀ (fc : Option String) (cc : Option Int), (extract_fact_fallback fc cc).newsworthy = none) ∧
    (∀ (cfg : Config) (md5hex : String → String) (matchOracle dupOracle : SemanticOracle)
        (extract : String → ExtractResult) (cache : Finset String) (st : PipeState) (hl : Headline),
      (extract hl.text).newsworthy = none →
      process_headline cfg md5hex matchOracle dupOracle extract cache st hl =
        process_headline cfg md5hex matchOracle dupOracle
          (fun t => { extract t with newsworthy := some true }) cache st hl) ∧
    (∀ (cfg : Config) (md5hex : String → String) (matchOracle dupOracle : SemanticOracle)
        (extract : String → ExtractResult) (cache : Finset String) (st : PipeState) (hl : Headline),
      get_story_hash md5hex hl.text ∉ cache →
      (extract hl.text).fact ≠ "SKIP" →
      ¬ (extract hl.text).confidence < cfg.min_confidence →
      (extract hl.text).newsworthy = none →
      (is_duplicate md5hex dupOracle st.shown st.publishedFacts (extract hl.text).fact).1 = false →
      (find_matching_stories matchOracle (extract hl.text).fact st.queue).1 = [] →
      ({ fact := (extract hl.text).fact, source_id := hl.source_id, source_name := hl.source_name,
         source_rating := hl.source_rating, timestamp := hl.timestamp,
         confidence := (extract hl.text).confidence } : QueueItem) ∈
        (process_headline cfg md5hex matchOracle dupOracle extract cache st hl).state.queue) := by
  refine ⟨?_, ?_, ?_⟩
  · intro fc cc
    cases fc <;> rfl
  · intro cfg md5hex matchOracle dupOracle extract cache st hl hn
    unfold process_headline
    by_cases hc : get_story_hash md5hex hl.text ∈ cache
    · rw [if_pos hc, if_pos hc]
    · rw [if_neg hc, if_neg hc]
      dsimp only
      rw [hn]
      simp only [Option.getD_none, Option.getD_some]
  · intro cfg md5hex matchOracle dupOracle extract cache st hl hcache hskip hconf hn hdup hfm
    have hpe : process_headline cfg md5hex matchOracle dupOracle extract cache st hl =
        { state := { st with
            processed := insert (get_story_hash md5hex hl.text) st.processed,
            queue := st.queue ++
              [{ fact := (extract hl.text).fact, source_id := hl.source_id,
                 source_name := hl.source_name, source_rating := hl.source_rating,
                 timestamp := hl.timestamp, confidence := (extract hl.text).confidence }] },
          dupOracleCalls :=
            (is_duplicate md5hex dupOracle st.shown st.publishedFacts (extract hl.text).fact).2,
          matcherInvoked := true,
          matcherOracleCalls :=
            (find_matching_stories matchOracle (extract hl.text).fact st.queue).2 } := by
      unfold process_headline
      rw [if_neg hcache]
      dsimp only
      rw [if_neg hskip, if_neg hconf, if_neg (by simp [hn]), if_neg (by simp [hdup]),
        if_pos (by simp [hfm])]
    rw [hpe]
    dsimp only
    simp

/-- Witness for C10: a fact extracted with no newsworthy key passes the gate
and is enqueued when nothing corroborates it. -/
theorem C10_witness :
    qNewW ∈ (process_headline cfgUnrelW md5W oracleOneW oracleNoW extractNoNewsW ∅ stEmptyW hlW).state.queue :=
  C10_missing_newsworthy_defaults_true.2.2 cfgUnrelW md5W oracleOneW oracleNoW extractNoNewsW
    ∅ stEmptyW hlW (by decide) (by decide) (by decide) (by decide) (by decide) (by decide)

end JTFNews
